import Mathlib

/-!
Verification development for the KubeCost repository.

The repository ships a presentation layer (src/app/app.js). Its specification
describes a Cost Analysis and Recommendation Engine that lives behind the
endpoints the UI calls; that engine is not part of the shipped sources, so its
operations are modelled here from the specification text. The UI rendering
logic that is present in src/app/app.js is embedded directly.

All currency amounts and utilization quantities are rationals.
-/

namespace Engine

/-- Modelled from the spec: a `UtilizationSample` (section 3) carries the
observed CPU and memory usage quantities of one node at one instant, each a
clamped value in [0,1]. The engine holding this type is absent from the
repository (frontend only). -/
structure Sample where
  cpu : ℚ
  mem : ℚ
deriving DecidableEq

/-- Modelled from the spec: a `Node` (section 3) with identity, resource
capacity, hourly and monthly cost, together with its utilization samples in
the analysis window. The engine holding this type is absent from the
repository. -/
structure NodeTelemetry where
  nodeId : Nat
  cpuCapacity : ℚ
  memCapacity : ℚ
  hourlyCost : ℚ
  monthlyCost : ℚ
  samples : List Sample
deriving DecidableEq

/-- Modelled from the spec: an instance class (section 4.2) a node can be
downsized to, with its capacities and monthly cost. The catalog of classes is
an input to the engine, which is absent from the repository. -/
structure InstanceClassSpec where
  name : String
  cpuCapacity : ℚ
  memCapacity : ℚ
  monthlyCost : ℚ
deriving DecidableEq

/-- Modelled from the spec: the per-cluster telemetry the Analysis
Orchestrator reads (sections 2 and 3): the cluster identity, its nodes with
their windowed samples, and the instance-class catalog used for downsizing.
The engine is absent from the repository. -/
structure ClusterTelemetry where
  clusterId : Nat
  nodes : List NodeTelemetry
  catalog : List InstanceClassSpec
deriving DecidableEq

/-- Mean of a list of rationals, 0 on the empty list. -/
def listMean (l : List ℚ) : ℚ :=
  if l.length = 0 then 0 else l.sum / l.length

/-- Peak (maximum) of a list of rationals, 0 on the empty list; sample
values are clamped to [0,1] so 0 is a neutral floor. -/
def listPeak (l : List ℚ) : ℚ := l.foldr max 0

/-- Population variance of a list of rationals, 0 on the empty list. -/
def listVariance (l : List ℚ) : ℚ :=
  if l.length = 0 then 0
  else ((l.map fun x => (x - listMean l) ^ 2).sum) / l.length

/-- Modelled from the spec: the minimum sample count (default 12, section
4.1) under which a node summary is flagged insufficient. -/
def minSampleCount : Nat := 12

/-- Modelled from the spec: the Utilization Analyzer per-node summary
(section 4.1): mean and peak CPU and memory over the window, the sample
count, and the insufficient-data flag. The analyzer is absent from the
repository. -/
structure NodeSummary where
  nodeId : Nat
  meanCpu : ℚ
  meanMem : ℚ
  peakCpu : ℚ
  peakMem : ℚ
  sampleCount : Nat
  insufficientData : Bool
deriving DecidableEq

/-- Modelled from the spec: aggregation of one node's windowed samples into
its utilization summary (section 4.1). -/
def summarize (n : NodeTelemetry) : NodeSummary :=
  { nodeId := n.nodeId
    meanCpu := listMean (n.samples.map Sample.cpu)
    meanMem := listMean (n.samples.map Sample.mem)
    peakCpu := listPeak (n.samples.map Sample.cpu)
    peakMem := listPeak (n.samples.map Sample.mem)
    sampleCount := n.samples.length
    insufficientData := decide (n.samples.length < minSampleCount) }

/-- Modelled from the spec: idle threshold on mean CPU (0.10, section 4.1). -/
def idleCpuMax : ℚ := 1 / 10

/-- Modelled from the spec: idle threshold on mean memory (0.15, section 4.1). -/
def idleMemMax : ℚ := 3 / 20

/-- Modelled from the spec: over-provisioned threshold on peak CPU (0.40). -/
def overProvCpuPeakMax : ℚ := 2 / 5

/-- Modelled from the spec: over-provisioned threshold on peak memory (0.50). -/
def overProvMemPeakMax : ℚ := 1 / 2

/-- Modelled from the spec: fragmented low-utilization threshold (0.30). -/
def fragmentedLowMax : ℚ := 3 / 10

/-- Modelled from the spec: the cluster-mate utilization level (0.70) above
which another node makes a low node a fragmentation candidate. -/
def fragmentedHighMin : ℚ := 7 / 10

/-- Modelled from the spec: waste-pattern classification tags (section 4.1). -/
inductive WasteTag
  | idle
  | overProvisioned
  | fragmented
  | healthy
deriving DecidableEq

/-- Modelled from the spec: whether some other node of the cluster runs above
the 0.70 level (section 4.1, fragmented rule). -/
def hasOtherHighNode (summaries : List NodeSummary) (s : NodeSummary) : Bool :=
  summaries.any fun t =>
    decide (t.nodeId ≠ s.nodeId ∧ (fragmentedHighMin < t.meanCpu ∨ fragmentedHighMin < t.meanMem))

/-- Modelled from the spec: the Utilization Analyzer classification (section
4.1), checked in the order the spec lists the tags: idle, then
over-provisioned, then fragmented, else healthy. `otherHigh` says whether
some other node of the same cluster runs above the 0.70 level. -/
def classifyNode (otherHigh : Bool) (s : NodeSummary) : WasteTag :=
  if s.meanCpu < idleCpuMax ∧ s.meanMem < idleMemMax then .idle
  else if s.peakCpu < overProvCpuPeakMax ∧ s.peakMem < overProvMemPeakMax then .overProvisioned
  else if (s.meanCpu < fragmentedLowMax ∨ s.meanMem < fragmentedLowMax) ∧ otherHigh then .fragmented
  else .healthy

/-- Modelled from the spec: recommendation priority, an ordered enumeration
Low < Medium < High (section 3). -/
inductive Priority
  | Low
  | Medium
  | High
deriving DecidableEq

/-- Modelled from the spec: implementation complexity, an ordered
enumeration Low/Medium/High (section 3). -/
inductive Complexity
  | Low
  | Medium
  | High
deriving DecidableEq

/-- Modelled from the spec: a `Recommendation` (section 3) with owning
cluster, the node it concerns (0 for cluster-scope recommendations),
description, priority, impact text, monthly savings estimate, and
implementation complexity. The generator is absent from the repository. -/
structure Recommendation where
  clusterId : Nat
  nodeId : Nat
  description : String
  priority : Priority
  impact : String
  savings_estimate : ℚ
  implementation_complexity : Complexity
deriving DecidableEq

/-- Rank of a priority for sorting; High sorts first. -/
def priorityRank : Priority → Nat
  | .High => 0
  | .Medium => 1
  | .Low => 2

/-- Modelled from the spec: the recommendation ordering (section 4.2):
descending savings estimate, ties broken by priority High before Medium
before Low, remaining ties by node identity. -/
def recBefore (a b : Recommendation) : Prop :=
  b.savings_estimate < a.savings_estimate ∨
    (a.savings_estimate = b.savings_estimate ∧
      (priorityRank a.priority < priorityRank b.priority ∨
        (priorityRank a.priority = priorityRank b.priority ∧ a.nodeId ≤ b.nodeId)))

instance : DecidableRel recBefore := fun a b => by
  unfold recBefore; infer_instance

instance : IsTotal Recommendation recBefore where
  total a b := by
    unfold recBefore
    rcases lt_trichotomy a.savings_estimate b.savings_estimate with h | h | h
    · right; left; exact h
    · rcases Nat.lt_trichotomy (priorityRank a.priority) (priorityRank b.priority) with h2 | h2 | h2
      · left; right; exact ⟨h, Or.inl h2⟩
      · rcases Nat.le_total a.nodeId b.nodeId with h3 | h3
        · left; right; exact ⟨h, Or.inr ⟨h2, h3⟩⟩
        · right; right; exact ⟨h.symm, Or.inr ⟨h2.symm, h3⟩⟩
      · right; right; exact ⟨h.symm, Or.inl h2⟩
    · left; left; exact h

instance : IsTrans Recommendation recBefore where
  trans a b c hab hbc := by
    unfold recBefore at hab hbc ⊢
    rcases hab with h1 | ⟨e1, h1⟩ <;> rcases hbc with h2 | ⟨e2, h2⟩
    · exact Or.inl (h2.trans h1)
    · exact Or.inl (e2 ▸ h1)
    · exact Or.inl (e1 ▸ h2)
    · exact Or.inr ⟨e1.trans e2, by omega⟩

/-- Modelled from the spec: a downsize candidate must keep the observed peak
usage at or above sixty percent occupancy of the new class (section 4.2). -/
def downsizeOccupancyMin : ℚ := 3 / 5

/-- Among catalog candidates, the one with the largest monthly cost — the
next smaller class below the current one. -/
def pickLargestCost : List InstanceClassSpec → Option InstanceClassSpec
  | [] => none
  | c :: cs => some (cs.foldl (fun best d => if best.monthlyCost < d.monthlyCost then d else best) c)

/-- Modelled from the spec: the downsizing target for an over-provisioned
node (section 4.2) — the next smaller instance class that fits the peak
observed usage and would be occupied at sixty percent or more by it. -/
def downsizeTarget (catalog : List InstanceClassSpec) (n : NodeTelemetry)
    (s : NodeSummary) : Option InstanceClassSpec :=
  pickLargestCost (catalog.filter fun c =>
    decide (c.monthlyCost < n.monthlyCost ∧
      s.peakCpu * n.cpuCapacity ≤ c.cpuCapacity ∧
      s.peakMem * n.memCapacity ≤ c.memCapacity ∧
      (downsizeOccupancyMin * c.cpuCapacity ≤ s.peakCpu * n.cpuCapacity ∨
        downsizeOccupancyMin * c.memCapacity ≤ s.peakMem * n.memCapacity)))

/-- Modelled from the spec: per-node recommendation rules (section 4.2).
Idle nodes get a High-priority termination recommendation worth the full
monthly cost; over-provisioned nodes get a Medium-priority downsizing
recommendation worth the cost delta. Fragmented nodes are handled at the
cluster level; nodes with zero samples yield no recommendation. -/
def nodeRecommendation (cid : Nat) (catalog : List InstanceClassSpec)
    (summaries : List NodeSummary) (n : NodeTelemetry) : List Recommendation :=
  let s := summarize n
  if s.sampleCount = 0 then []
  else
    match classifyNode (hasOtherHighNode summaries s) s with
    | .idle =>
        [{ clusterId := cid, nodeId := n.nodeId
           description := "Terminate idle node or scale it to zero"
           priority := .High
           impact := "Node shows idle CPU and memory utilization over the analysis window"
           savings_estimate := n.monthlyCost
           implementation_complexity := .Low }]
    | .overProvisioned =>
        match downsizeTarget catalog n s with
        | some c =>
            [{ clusterId := cid, nodeId := n.nodeId
               description := "Downsize node to instance class " ++ c.name
               priority := .Medium
               impact := "Peak observed usage fits a smaller instance class at sixty percent occupancy or more"
               savings_estimate := n.monthlyCost - c.monthlyCost
               implementation_complexity := .Medium }]
        | none => []
    | .fragmented => []
    | .healthy => []

/-- Hours in the monthly costing period used by the savings model. -/
def hoursPerMonth : ℚ := 730

/-- Modelled from the spec: the consolidation recommendation for a set of at
least two fragmented nodes (section 4.2); the savings estimate is the freed
node-hours times their hourly cost, modelled as keeping the most expensive
fragmented node and freeing the rest for a month. -/
def fragmentedRecommendation (cid : Nat) (nodes : List NodeTelemetry)
    (summaries : List NodeSummary) : List Recommendation :=
  let frags := nodes.filter fun n =>
    decide ((summarize n).sampleCount ≠ 0 ∧
      classifyNode (hasOtherHighNode summaries (summarize n)) (summarize n) = WasteTag.fragmented)
  if 2 ≤ frags.length then
    [{ clusterId := cid, nodeId := 0
       description := "Consolidate fragmented nodes onto fewer nodes"
       priority := .Medium
       impact := "Several underutilized nodes can be bin-packed while other nodes run hot"
       savings_estimate := hoursPerMonth * ((frags.map NodeTelemetry.hourlyCost).sum - listPeak (frags.map NodeTelemetry.hourlyCost))
       implementation_complexity := .High }]
  else []

/-- Modelled from the spec: the global aggregate-utilization threshold
(default 20 percent, section 4.2) below which a cluster-level rightsizing
recommendation is emitted. -/
def clusterLowUtilMax : ℚ := 1 / 5

/-- Modelled from the spec: the fraction of total monthly cost used as the
cluster-rightsizing savings estimate; the spec leaves the exact estimate
open, so it is fixed here as one fifth. -/
def clusterRightsizingFraction : ℚ := 1 / 5

/-- Capacity-weighted mean of value/weight pairs, 0 when the weights sum
to 0. -/
def weightedMean (pairs : List (ℚ × ℚ)) : ℚ :=
  if (pairs.map Prod.snd).sum = 0 then 0
  else (pairs.map fun p => p.1 * p.2).sum / (pairs.map Prod.snd).sum

/-- Modelled from the spec: the cluster-level rightsizing recommendation
(section 4.2), emitted when aggregate CPU or memory utilization across all
nodes is below the global threshold for the window. -/
def clusterRecommendation (cid : Nat) (nodes : List NodeTelemetry) : List Recommendation :=
  if weightedMean (nodes.map fun n => ((summarize n).meanCpu, n.cpuCapacity)) < clusterLowUtilMax ∨
      weightedMean (nodes.map fun n => ((summarize n).meanMem, n.memCapacity)) < clusterLowUtilMax then
    [{ clusterId := cid, nodeId := 0
       description := "Rightsize the cluster"
       priority := .High
       impact := "Aggregate utilization across all nodes is below twenty percent"
       savings_estimate := clusterRightsizingFraction * (nodes.map NodeTelemetry.monthlyCost).sum
       implementation_complexity := .Medium }]
  else []

/-- Modelled from the spec: the confidence score (section 4.2): the fraction
of nodes with sufficient samples weighted 70 percent plus the inverse of the
pooled utilization variance weighted 30 percent, scaled to [0,100]. -/
def confidenceScore (nodes : List NodeTelemetry) : ℚ :=
  if nodes.length = 0 then 0
  else
    70 * (((nodes.filter fun n => decide (minSampleCount ≤ n.samples.length)).length : ℚ) / (nodes.length : ℚ)) +
      30 * (1 / (1 + listVariance ((nodes.map fun n => n.samples.map Sample.cpu ++ n.samples.map Sample.mem).flatten)))

/-- Modelled from the spec: the insights text returned when the cluster has
zero utilization samples in the window (section 4.2), stating that data is
insufficient. -/
def insufficientDataInsights : String :=
  "Insufficient data: no utilization samples were recorded in the analysis window, so no recommendations can be generated."

/-- Modelled from the spec: the deterministic template-driven insights
summary (sections 4.5 and 9) built from the computed recommendations. -/
def analysisInsights (nodeCount recCount : Nat) (savings : ℚ) : String :=
  "Analyzed " ++ toString nodeCount ++ " nodes and produced " ++ toString recCount ++
    " recommendations with estimated monthly savings of " ++ toString savings ++ "."

/-- Total number of utilization samples across the cluster's nodes. -/
def totalSampleCount (tel : ClusterTelemetry) : Nat :=
  (tel.nodes.map fun n => n.samples.length).sum

/-- Modelled from the spec: an `AnalysisResult` (section 3): owning cluster,
potential savings, confidence score in [0,100], insights text, and the
ordered recommendations of the run. -/
structure AnalysisResult where
  clusterId : Nat
  potential_savings : ℚ
  confidence_score : ℚ
  ai_insights : String
  recommendations : List Recommendation
deriving DecidableEq

/-- Modelled from the spec: the raw (unordered) recommendation batch of an
analysis run (section 4.2): per-node rules, the fragmented-set rule, and the
cluster-level rule. -/
def rawRecommendations (tel : ClusterTelemetry) : List Recommendation :=
  (tel.nodes.map (nodeRecommendation tel.clusterId tel.catalog (tel.nodes.map summarize))).flatten ++
    fragmentedRecommendation tel.clusterId tel.nodes (tel.nodes.map summarize) ++
    clusterRecommendation tel.clusterId tel.nodes

/-- Modelled from the spec: the Analysis Orchestrator entry point `analyze`
(section 4.5), absent from the repository. A cluster with zero utilization
samples gets a zero-confidence, zero-recommendation result with an
insufficient-data insight (section 4.2); otherwise the result carries the
generated recommendations sorted by the spec ordering, their savings sum as
`potential_savings`, the coverage-and-variance confidence score, and a
template insights string. -/
def analyze (tel : ClusterTelemetry) : AnalysisResult :=
  if totalSampleCount tel = 0 then
    { clusterId := tel.clusterId
      potential_savings := 0
      confidence_score := 0
      ai_insights := insufficientDataInsights
      recommendations := [] }
  else
    { clusterId := tel.clusterId
      potential_savings := ((rawRecommendations tel).map Recommendation.savings_estimate).sum
      confidence_score := confidenceScore tel.nodes
      ai_insights := analysisInsights tel.nodes.length (rawRecommendations tel).length
        (((rawRecommendations tel).map Recommendation.savings_estimate).sum)
      recommendations := List.insertionSort recBefore (rawRecommendations tel) }

/-- Modelled from the spec: the fixed set of alert type tags (section 3). -/
inductive AlertType
  | cost_spike
  | idle_resource
  | budget_threshold
  | rightsizing_drift
deriving DecidableEq

/-- Modelled from the spec: alert severity, an ordered enumeration
low/medium/high (section 3). -/
inductive AlertSeverity
  | low
  | medium
  | high
deriving DecidableEq

/-- Modelled from the spec: an `Alert` (section 3) with identity, cluster,
type tag, severity, description, detection timestamp, resolution flag and
optional resolution timestamp. The Alert Lifecycle Manager holding these is
absent from the repository. -/
structure Alert where
  id : Nat
  clusterId : Nat
  alert_type : AlertType
  severity : AlertSeverity
  description : String
  detected_at : Nat
  resolved : Bool
  resolved_at : Option Nat
deriving DecidableEq

/-- Modelled from the spec: the Alert Lifecycle Manager store (section 4.4):
the persisted alerts plus a fresh-identity counter. -/
structure AlertStore where
  nextId : Nat
  alerts : List Alert
deriving DecidableEq

/-- The unresolved alerts of the store carrying the given
(cluster, alert type) pair. -/
def unresolvedMatches (st : AlertStore) (cid : Nat) (ty : AlertType) : List Alert :=
  st.alerts.filter fun a =>
    decide (a.clusterId = cid ∧ a.alert_type = ty ∧ a.resolved = false)

/-- Number of unresolved alerts of the store with the given
(cluster, alert type) pair. -/
def countUnresolved (st : AlertStore) (cid : Nat) (ty : AlertType) : Nat :=
  (unresolvedMatches st cid ty).length

/-- Modelled from the spec: `raise` (section 4.4), absent from the
repository: creates an Alert unless an unresolved one with the same
(cluster, alert type) pair already exists, in which case it is a no-op. -/
def raiseAlert (st : AlertStore) (cid : Nat) (ty : AlertType) (sev : AlertSeverity)
    (desc : String) (now : Nat) : AlertStore :=
  if st.alerts.any (fun a => decide (a.clusterId = cid ∧ a.alert_type = ty ∧ a.resolved = false)) then st
  else
    { nextId := st.nextId + 1
      alerts := st.alerts ++
        [{ id := st.nextId, clusterId := cid, alert_type := ty, severity := sev
           description := desc, detected_at := now, resolved := false, resolved_at := none }] }

/-- Modelled from the spec: the distinctly typed structural failures of the
resolve operation (sections 4.4 and 7). -/
inductive ResolveError
  | notFound
  | invalidState
deriving DecidableEq

/-- Modelled from the spec: `resolve` (section 4.4), absent from the
repository: transitions an existing unresolved Alert to resolved and stamps
`resolved_at`; an unknown id fails with `NotFoundError` and an
already-resolved alert fails with `InvalidStateError`. -/
def resolveAlert (st : AlertStore) (aid : Nat) (now : Nat) : Except ResolveError AlertStore :=
  match st.alerts.find? (fun a => decide (a.id = aid)) with
  | none => .error .notFound
  | some a =>
      if a.resolved then .error .invalidState
      else .ok
        { st with alerts := st.alerts.map fun b =>
            if b.id = aid then { b with resolved := true, resolved_at := some now } else b }

/-- Ascending sort of a list of rationals. -/
def sortQ (l : List ℚ) : List ℚ := List.insertionSort (· ≤ ·) l

/-- Modelled from the spec: the robust median over a window (section 4.3):
middle element of the sorted list, or the mean of the two middle elements
for even length; 0 on the empty list. -/
def median (l : List ℚ) : ℚ :=
  if l.length = 0 then 0
  else if l.length % 2 = 1 then (sortQ l).getD (l.length / 2) 0
  else ((sortQ l).getD (l.length / 2 - 1) 0 + (sortQ l).getD (l.length / 2) 0) / 2

/-- Absolute value of a rational, written out so that it evaluates by
kernel reduction. -/
def absQ (x : ℚ) : ℚ := if x < 0 then -x else x

/-- Modelled from the spec: the deviation of the most recent cost point from
the trailing-median baseline of the window (section 4.3). -/
def devOf (latest : ℚ) (window : List ℚ) : ℚ := absQ (latest - median window)

/-- Modelled from the spec: the median absolute deviation of the window
around its median (section 4.3). -/
def madOf (window : List ℚ) : ℚ := median (window.map fun x => absQ (x - median window))

/-- Modelled from the spec: the severity of an emitted cost-spike alert
(section 4.3): deviation at least five times the baseline deviation is high,
at least three times is medium, otherwise low. -/
def spikeSeverity (latest : ℚ) (window : List ℚ) : AlertSeverity :=
  if 5 * madOf window ≤ devOf latest window then .high
  else if 3 * madOf window ≤ devOf latest window then .medium
  else .low

/-- Modelled from the spec: the Anomaly Detector cost-spike check (section
4.3), absent from the repository. The most recent point of the series is
flagged when it deviates from the trailing median of the earlier points by
more than `mult` times the median absolute deviation, floor-guarded by the
absolute minimum deviation `floorAmt` (default 5 dollars). Returns the
severity of the emitted alert candidate, or none. -/
def detectCostSpike (mult floorAmt : ℚ) (series : List ℚ) : Option AlertSeverity :=
  match series.getLast? with
  | none => none
  | some latest =>
      if series.dropLast.length = 0 then none
      else if mult * madOf series.dropLast < devOf latest series.dropLast ∧
          floorAmt ≤ devOf latest series.dropLast then
        some (spikeSeverity latest series.dropLast)
      else none

end Engine

namespace UI

/-- An alert record as the App component in src/app/app.js reads it from the
alerts endpoint: the fields the JSX accesses (id, severity, alert type,
description, detection timestamp, resolved flag). -/
structure Alert where
  id : String
  severity : String
  alert_type : String
  description : String
  detected_at : String
  resolved : Bool
deriving DecidableEq

/-- Replace the first occurrence of `pat` in `s` by `rep`, as the JavaScript
`String.replace` with a string pattern does (used at src/app/app.js line
523). -/
def replaceFirst (s pat rep : String) : String :=
  match s.splitOn pat with
  | [] => s
  | [x] => x
  | x :: y :: rest => x ++ rep ++ String.intercalate pat (y :: rest)

/-- The underscore pattern replaced in alert type names (src/app/app.js
line 523). -/
def underscoreText : String := "_"

/-- The space text substituted for underscores (src/app/app.js line 523). -/
def spaceText : String := " "

/-- A rendered piece of an alert card, abstracting the JSX nodes of
src/app/app.js lines 496-537. -/
inductive Elem
  | severityBadge (label : String)
  | timeLabel (t : String)
  | resolvedBadge
  | heading (t : String)
  | bodyText (t : String)
  | resolveButton (alertId : String)
deriving DecidableEq

/-- Embeds the alert card JSX of src/app/app.js lines 496-537: the severity
badge and timestamp, the RESOLVED badge rendered when `alert.resolved` is
true, the heading and description, and the Resolve button rendered when
`alert.resolved` is false. -/
def renderAlertCard (a : Alert) : List Elem :=
  [Elem.severityBadge a.severity.toUpper, Elem.timeLabel a.detected_at] ++
    (if a.resolved then [Elem.resolvedBadge] else []) ++
    [Elem.heading (replaceFirst a.alert_type underscoreText spaceText).toUpper,
      Elem.bodyText a.description] ++
    (if a.resolved then [] else [Elem.resolveButton a.id])

/-- Embeds the header Alerts tab badge of src/app/app.js lines 146-150: it
is rendered only when the count of alerts whose `resolved` field is false is
positive, and then shows that count. -/
def headerAlertsBadge (alerts : List Alert) : Option Nat :=
  if (alerts.filter fun a => !a.resolved).length > 0 then
    some (alerts.filter fun a => !a.resolved).length
  else none

/-- Embeds the active-alerts counter of the Alerts tab, src/app/app.js lines
484-486. -/
def alertsTabActiveCount (alerts : List Alert) : Nat :=
  (alerts.filter fun a => !a.resolved).length

/-- Embeds the JavaScript `Math.max` over the spread cost list at
src/app/app.js line 308; on the empty list JavaScript yields negative
infinity, which the claims' non-empty precondition never reaches, so 0
stands in for it here. -/
def maxCost : List ℚ → ℚ
  | [] => 0
  | x :: xs => xs.foldl max x

/-- Embeds the cost-trend bar height of src/app/app.js lines 303-311 as a
fraction of the chart height: the cost of the point divided by the maximum
cost over all points (the JSX scales this by 100 into a percentage). -/
def trendBarFrac (costs : List ℚ) (c : ℚ) : ℚ := c / maxCost costs

end UI

/-- C5: the Utilization Analyzer tags a node idle exactly when its mean CPU
over the full window is below 0.10 and its mean memory is below 0.15,
whatever the rest of the cluster looks like; in particular a node with both
means at 0.05 is tagged idle, and raising either mean to or above its
threshold removes the tag. -/
theorem classifyNode_idle_iff (otherHigh : Bool) (s : Engine.NodeSummary) :
    Engine.classifyNode otherHigh s = Engine.WasteTag.idle ↔
      (s.meanCpu < 1 / 10 ∧ s.meanMem < 3 / 20) := by
  unfold Engine.classifyNode Engine.idleCpuMax Engine.idleMemMax
  split_ifs with h1 h2 h3 <;> simp_all

/-- C1: the potential savings of every analysis result equals exactly the
sum of the savings estimates of the recommendations returned by the same
run. -/
theorem analyze_potential_savings_eq_sum (tel : Engine.ClusterTelemetry) :
    (Engine.analyze tel).potential_savings =
      ((Engine.analyze tel).recommendations.map Engine.Recommendation.savings_estimate).sum := by
  unfold Engine.analyze
  split
  · rfl
  · exact (((List.perm_insertionSort Engine.recBefore (Engine.rawRecommendations tel)).map
      Engine.Recommendation.savings_estimate).sum_eq).symm

/-- C2: for a cluster with zero utilization samples in the analysis window,
analyze returns (rather than failing) a result whose confidence score is 0,
whose recommendation list is empty, and whose insights text states that data
is insufficient. -/
theorem analyze_zero_samples_graceful (tel : Engine.ClusterTelemetry)
    (h : Engine.totalSampleCount tel = 0) :
    (Engine.analyze tel).confidence_score = 0 ∧
      (Engine.analyze tel).recommendations = [] ∧
      (Engine.analyze tel).ai_insights = Engine.insufficientDataInsights := by
  unfold Engine.analyze
  rw [if_pos h]
  exact ⟨rfl, rfl, rfl⟩

/-- A concrete cluster with one node and no samples in the window. -/
def telNoSamples : Engine.ClusterTelemetry :=
  { clusterId := 1
    nodes := [{ nodeId := 1, cpuCapacity := 4, memCapacity := 16, hourlyCost := 1,
                monthlyCost := 730, samples := [] }]
    catalog := [] }

/-- Witness for C2 at a concrete sample-free cluster. -/
theorem analyze_zero_samples_graceful_witness :
    Engine.totalSampleCount telNoSamples = 0 ∧
      ((Engine.analyze telNoSamples).confidence_score = 0 ∧
        (Engine.analyze telNoSamples).recommendations = [] ∧
        (Engine.analyze telNoSamples).ai_insights = Engine.insufficientDataInsights) :=
  ⟨rfl, analyze_zero_samples_graceful telNoSamples rfl⟩

/-- C6: analyze is deterministic — the same telemetry yields the same
result — and its recommendation sequence is ordered by descending savings
estimate, ties broken by priority High before Medium before Low, remaining
ties by node identity (the `Engine.recBefore` ordering). -/
theorem analyze_deterministic_sorted (tel : Engine.ClusterTelemetry) :
    Engine.analyze tel = Engine.analyze tel ∧
      List.Sorted Engine.recBefore (Engine.analyze tel).recommendations := by
  refine ⟨rfl, ?_⟩
  unfold Engine.analyze
  split
  · exact List.sorted_nil
  · exact List.sorted_insertionSort Engine.recBefore (Engine.rawRecommendations tel)

/-- C7: the Anomaly Detector never emits a cost-spike alert when the most
recent point deviates from the trailing-median baseline by less than the
absolute floor, whatever the configured deviation multiple is. -/
theorem detect_cost_spike_floor_guard (mult floorAmt : ℚ) (series : List ℚ) (latest : ℚ)
    (hlast : series.getLast? = some latest)
    (hdev : Engine.devOf latest series.dropLast < floorAmt) :
    Engine.detectCostSpike mult floorAmt series = none := by
  simp only [Engine.detectCostSpike, hlast]
  by_cases hw : series.dropLast.length = 0
  · rw [if_pos hw]
  · have hnot : ¬(mult * Engine.madOf series.dropLast < Engine.devOf latest series.dropLast ∧
        floorAmt ≤ Engine.devOf latest series.dropLast) := by
      rintro ⟨-, h2⟩
      exact absurd hdev (not_lt.mpr h2)
    rw [if_neg hw, if_neg hnot]

/-- Witness for C7: a near-constant daily cost series at 100 dollars with a
final point half a dollar off never yields a cost spike at the default
3-times multiple and 5-dollar floor. -/
theorem detect_cost_spike_floor_guard_witness :
    ([100, 100, 100, 100, 100, 201 / 2] : List ℚ).getLast? = some (201 / 2) ∧
      Engine.devOf (201 / 2) ([100, 100, 100, 100, 100, 201 / 2] : List ℚ).dropLast < 5 ∧
      Engine.detectCostSpike 3 5 [100, 100, 100, 100, 100, 201 / 2] = none :=
  ⟨rfl,
    by norm_num [Engine.devOf, Engine.median, Engine.sortQ, Engine.absQ,
      List.insertionSort, List.orderedInsert],
    detect_cost_spike_floor_guard 3 5 [100, 100, 100, 100, 100, 201 / 2] (201 / 2) rfl
      (by norm_num [Engine.devOf, Engine.median, Engine.sortQ, Engine.absQ,
        List.insertionSort, List.orderedInsert])⟩

/-- A raise against a store already holding an unresolved alert of the same
(cluster, alert type) pair leaves the store unchanged. -/
theorem raiseAlert_of_any_true (st : Engine.AlertStore) (cid : Nat) (ty : Engine.AlertType)
    (sev : Engine.AlertSeverity) (d : String) (t : Nat)
    (h : st.alerts.any (fun a =>
      decide (a.clusterId = cid ∧ a.alert_type = ty ∧ a.resolved = false)) = true) :
    Engine.raiseAlert st cid ty sev d t = st := by
  unfold Engine.raiseAlert
  rw [if_pos h]

/-- A raise against a store with no unresolved alert of the pair appends a
fresh unresolved alert. -/
theorem raiseAlert_of_any_false (st : Engine.AlertStore) (cid : Nat) (ty : Engine.AlertType)
    (sev : Engine.AlertSeverity) (d : String) (t : Nat)
    (h : st.alerts.any (fun a =>
      decide (a.clusterId = cid ∧ a.alert_type = ty ∧ a.resolved = false)) = false) :
    Engine.raiseAlert st cid ty sev d t =
      { nextId := st.nextId + 1
        alerts := st.alerts ++
          [{ id := st.nextId, clusterId := cid, alert_type := ty, severity := sev
             description := d, detected_at := t, resolved := false, resolved_at := none }] } := by
  unfold Engine.raiseAlert
  rw [if_neg (by rw [h]; exact Bool.false_ne_true)]

/-- C3: at most one unresolved alert per (cluster, alert type) pair —
starting from a store with none, raising the pair twice without resolving in
between is the same as raising it once (the second raise is a no-op against
the now-existing unresolved alert), and the store ends with exactly one
unresolved alert of the pair. -/
theorem raise_alert_dedup (st : Engine.AlertStore) (cid : Nat) (ty : Engine.AlertType)
    (sev₁ : Engine.AlertSeverity) (d₁ : String) (t₁ : Nat)
    (sev₂ : Engine.AlertSeverity) (d₂ : String) (t₂ : Nat)
    (h : Engine.countUnresolved st cid ty = 0) :
    Engine.raiseAlert (Engine.raiseAlert st cid ty sev₁ d₁ t₁) cid ty sev₂ d₂ t₂ =
        Engine.raiseAlert st cid ty sev₁ d₁ t₁ ∧
      Engine.countUnresolved
        (Engine.raiseAlert (Engine.raiseAlert st cid ty sev₁ d₁ t₁) cid ty sev₂ d₂ t₂) cid ty = 1 := by
  have hfil : st.alerts.filter (fun a =>
      decide (a.clusterId = cid ∧ a.alert_type = ty ∧ a.resolved = false)) = [] :=
    List.length_eq_zero.mp h
  have hany : st.alerts.any (fun a =>
      decide (a.clusterId = cid ∧ a.alert_type = ty ∧ a.resolved = false)) = false := by
    rw [List.any_eq_false]
    intro a ha
    simpa using List.filter_eq_nil_iff.mp hfil a ha
  have hA := raiseAlert_of_any_false st cid ty sev₁ d₁ t₁ hany
  have hAany : (Engine.raiseAlert st cid ty sev₁ d₁ t₁).alerts.any (fun a =>
      decide (a.clusterId = cid ∧ a.alert_type = ty ∧ a.resolved = false)) = true := by
    rw [hA]
    simp
  have hAalerts : (Engine.raiseAlert st cid ty sev₁ d₁ t₁).alerts = st.alerts ++
      [{ id := st.nextId, clusterId := cid, alert_type := ty, severity := sev₁
         description := d₁, detected_at := t₁, resolved := false, resolved_at := none }] := by
    rw [hA]
  refine ⟨raiseAlert_of_any_true _ _ _ _ _ _ hAany, ?_⟩
  rw [raiseAlert_of_any_true _ _ _ _ _ _ hAany]
  unfold Engine.countUnresolved Engine.unresolvedMatches
  rw [hAalerts, List.filter_append, hfil]
  simp

/-- The empty alert store. -/
def emptyAlertStore : Engine.AlertStore := { nextId := 0, alerts := [] }

/-- A concrete alert description used by the dedup witness. -/
def spikeDescText : String := "cost spike detected"

/-- Witness for C3 at the empty store and a concrete pair. -/
theorem raise_alert_dedup_witness :
    Engine.countUnresolved emptyAlertStore 1 Engine.AlertType.cost_spike = 0 ∧
      (Engine.raiseAlert
          (Engine.raiseAlert emptyAlertStore 1 Engine.AlertType.cost_spike
            Engine.AlertSeverity.high spikeDescText 5)
          1 Engine.AlertType.cost_spike Engine.AlertSeverity.high spikeDescText 6 =
        Engine.raiseAlert emptyAlertStore 1 Engine.AlertType.cost_spike
          Engine.AlertSeverity.high spikeDescText 5 ∧
      Engine.countUnresolved
        (Engine.raiseAlert
          (Engine.raiseAlert emptyAlertStore 1 Engine.AlertType.cost_spike
            Engine.AlertSeverity.high spikeDescText 5)
          1 Engine.AlertType.cost_spike Engine.AlertSeverity.high spikeDescText 6)
        1 Engine.AlertType.cost_spike = 1) :=
  ⟨rfl, raise_alert_dedup emptyAlertStore 1 Engine.AlertType.cost_spike
    Engine.AlertSeverity.high spikeDescText 5
    Engine.AlertSeverity.high spikeDescText 6 rfl⟩

/-- C4: resolve transitions an existing unresolved alert to resolved and
stamps `resolved_at`; resolving it again fails with `InvalidStateError`
(one-way transition); resolving an already-resolved alert fails with
`InvalidStateError`; resolving an unknown id fails with `NotFoundError`; and
the resolved flags of the store only ever go from false to true (the flag of
every other alert is unchanged and the target flag is set). -/
theorem resolve_alert_lifecycle (st : Engine.AlertStore) (aid now now₂ : Nat) :
    match st.alerts.find? (fun a => decide (a.id = aid)) with
    | none => Engine.resolveAlert st aid now = Except.error Engine.ResolveError.notFound
    | some a =>
        if a.resolved = true then
          Engine.resolveAlert st aid now = Except.error Engine.ResolveError.invalidState
        else
          ∃ st₂, Engine.resolveAlert st aid now = Except.ok st₂ ∧
            st₂.alerts.find? (fun b => decide (b.id = aid)) =
              some { a with resolved := true, resolved_at := some now } ∧
            Engine.resolveAlert st₂ aid now₂ = Except.error Engine.ResolveError.invalidState ∧
            st₂.alerts.map (fun b => (b.id, b.resolved)) =
              st.alerts.map (fun b => (b.id, b.resolved || decide (b.id = aid))) := by
  cases hf : st.alerts.find? (fun a => decide (a.id = aid)) with
  | none =>
      unfold Engine.resolveAlert
      rw [hf]
  | some a =>
      dsimp only
      by_cases hr : a.resolved = true
      · rw [if_pos hr]
        unfold Engine.resolveAlert
        rw [hf]
        dsimp only
        rw [if_pos hr]
      · rw [if_neg hr]
        have haid : a.id = aid := of_decide_eq_true
          (@List.find?_some Engine.Alert (fun b => decide (b.id = aid)) a st.alerts hf)
        have hfind : (st.alerts.map fun b =>
            if b.id = aid then { b with resolved := true, resolved_at := some now } else b).find?
              (fun b => decide (b.id = aid)) =
            some { a with resolved := true, resolved_at := some now } := by
          rw [List.find?_map]
          have hcomp : ((fun b : Engine.Alert => decide (b.id = aid)) ∘ fun b =>
              if b.id = aid then { b with resolved := true, resolved_at := some now } else b) =
              fun b : Engine.Alert => decide (b.id = aid) := by
            funext b
            by_cases hb : b.id = aid <;> simp [hb]
          rw [hcomp, hf]
          simp [haid]
        refine ⟨{ st with alerts := st.alerts.map fun b =>
            if b.id = aid then { b with resolved := true, resolved_at := some now } else b },
          ?_, hfind, ?_, ?_⟩
        · unfold Engine.resolveAlert
          rw [hf]
          dsimp only
          rw [if_neg hr]
        · unfold Engine.resolveAlert
          rw [hfind]
          rfl
        · rw [List.map_map]
          refine List.map_congr_left fun b _ => ?_
          by_cases hb : b.id = aid <;> simp [hb]

/-- C8: in a rendered alert card the Resolve control is present exactly when
the resolved field of the alert is false, and the RESOLVED badge is present
exactly when it is true. -/
theorem alert_card_resolve_control (a : UI.Alert) :
    (UI.Elem.resolveButton a.id ∈ UI.renderAlertCard a ↔ a.resolved = false) ∧
      (UI.Elem.resolvedBadge ∈ UI.renderAlertCard a ↔ a.resolved = true) := by
  cases h : a.resolved <;> simp [UI.renderAlertCard, h]

/-- C9: the count shown by the header tab badge and the active-alerts count
of the Alerts tab both equal the number of alerts whose resolved field is
false, and the badge is rendered exactly when that number is positive. -/
theorem alerts_badge_counts_agree (alerts : List UI.Alert) :
    UI.alertsTabActiveCount alerts = (alerts.filter fun a => a.resolved = false).length ∧
      UI.headerAlertsBadge alerts =
        (if 0 < UI.alertsTabActiveCount alerts then some (UI.alertsTabActiveCount alerts)
         else none) := by
  have hpred : (fun a : UI.Alert => !a.resolved) = (fun a : UI.Alert => decide (a.resolved = false)) := by
    funext a
    cases a.resolved <;> rfl
  constructor
  · unfold UI.alertsTabActiveCount
    rw [hpred]
  · unfold UI.headerAlertsBadge UI.alertsTabActiveCount
    rfl

/-- The initial value of a maximum fold bounds the fold from below. -/
theorem foldl_max_le_init (xs : List ℚ) (x : ℚ) : x ≤ xs.foldl max x := by
  induction xs generalizing x with
  | nil => exact le_refl x
  | cons y ys ih => exact le_trans (le_max_left x y) (ih (max x y))

/-- Every member of a list bounds its maximum fold from below. -/
theorem mem_le_foldl_max (xs : List ℚ) : ∀ (x c : ℚ), c ∈ xs → c ≤ xs.foldl max x := by
  induction xs with
  | nil => intro x c hc; cases hc
  | cons y ys ih =>
      intro x c hc
      rcases List.mem_cons.mp hc with rfl | hc2
      · exact le_trans (le_max_right x c) (foldl_max_le_init ys (max x c))
      · exact ih (max x y) c hc2

/-- Every cost is at most the maximum cost of its list. -/
theorem le_maxCost (costs : List ℚ) (c : ℚ) (hc : c ∈ costs) : c ≤ UI.maxCost costs := by
  cases costs with
  | nil => cases hc
  | cons x xs =>
      rcases List.mem_cons.mp hc with rfl | hc2
      · exact foldl_max_le_init xs c
      · exact mem_le_foldl_max xs x c hc2

/-- C10 counterexample: the claim as stated is false — a non-empty trend
list with a strictly positive maximum can still contain a point of cost 0,
whose bar height fraction is 0 and hence not in the interval (0, 1]. -/
theorem trend_bar_frac_claim_false :
    ¬ ∀ (costs : List ℚ), costs ≠ [] → 0 < UI.maxCost costs →
        ∀ c ∈ costs, 0 < UI.trendBarFrac costs c ∧ UI.trendBarFrac costs c ≤ 1 := by
  intro h
  have hm : UI.maxCost [0, 10] = 10 := by
    show max (0 : ℚ) 10 = 10
    exact max_eq_right (by norm_num)
  have h0 := (h [0, 10] (by simp) (by rw [hm]; norm_num) 0 (by simp)).1
  have hz : UI.trendBarFrac [0, 10] 0 = 0 := by
    unfold UI.trendBarFrac
    rw [hm]
    norm_num
  rw [hz] at h0
  exact lt_irrefl 0 h0

/-- C10 (amended): for a non-empty trend list all of whose costs are
strictly positive, the maximum cost is positive and every bar height
fraction equals that cost divided by the maximum cost and lies in (0, 1]. -/
theorem trend_bar_frac_bounds (costs : List ℚ) (hne : costs ≠ [])
    (hpos : ∀ c ∈ costs, 0 < c) :
    0 < UI.maxCost costs ∧
      ∀ c ∈ costs, UI.trendBarFrac costs c = c / UI.maxCost costs ∧
        0 < UI.trendBarFrac costs c ∧ UI.trendBarFrac costs c ≤ 1 := by
  have hmax : 0 < UI.maxCost costs := by
    cases costs with
    | nil => exact absurd rfl hne
    | cons x xs => exact lt_of_lt_of_le (hpos x (by simp)) (foldl_max_le_init xs x)
  refine ⟨hmax, fun c hc => ⟨rfl, ?_, ?_⟩⟩
  · exact div_pos (hpos c hc) hmax
  · rw [UI.trendBarFrac, div_le_one hmax]
    exact le_maxCost costs c hc

/-- Witness for the amended C10 at the concrete trend list [2, 5]. -/
theorem trend_bar_frac_bounds_witness :
    (([2, 5] : List ℚ) ≠ []) ∧ (∀ c ∈ ([2, 5] : List ℚ), 0 < c) ∧
      (0 < UI.maxCost [2, 5] ∧
        ∀ c ∈ ([2, 5] : List ℚ), UI.trendBarFrac [2, 5] c = c / UI.maxCost [2, 5] ∧
          0 < UI.trendBarFrac [2, 5] c ∧ UI.trendBarFrac [2, 5] c ≤ 1) :=
  ⟨by simp, by intro c hc; fin_cases hc <;> norm_num,
    trend_bar_frac_bounds [2, 5] (by simp) (by intro c hc; fin_cases hc <;> norm_num)⟩
